import Mathlib

/-!
Verification of the measurement engine of the mapquotey repository.

The engine lives in a single utility module and consists of pure functions
over latitude/longitude points: Haversine distance, polygon perimeter,
planar-projection Shoelace area, unit conversion, rounding to two decimals,
and display formatting.  JavaScript numbers are modelled by real numbers
(by rationals for the string-producing formatting helper, which uses only
field arithmetic and comparisons).  JavaScript `Math.round` rounds half
toward positive infinity and is modelled by `fun x => ⌊x + 1/2⌋`.
-/

namespace Mapquotey

noncomputable section

/-- A geographic point, `interface LatLng { lat: number; lng: number }`. -/
structure LatLng where
  lat : ℝ
  lng : ℝ

instance : Inhabited LatLng := ⟨⟨0, 0⟩⟩

/-- The measurement record, `interface AreaMeasurements`. -/
structure AreaMeasurements where
  area : ℝ
  perimeter : ℝ
  areaFt : ℝ
  perimeterFt : ℝ

/-- Validity range for geographic coordinates stated by the spec:
latitude in [-90, 90] and longitude in [-180, 180]. -/
def validPoint (p : LatLng) : Prop :=
  -90 ≤ p.lat ∧ p.lat ≤ 90 ∧ -180 ≤ p.lng ∧ p.lng ≤ 180

/-- `const EARTH_RADIUS = 6371000` (meters). -/
def EARTH_RADIUS : ℝ := 6371000

/-- `toRadians(degrees) = degrees * (Math.PI / 180)`. -/
def toRadians (degrees : ℝ) : ℝ := degrees * (Real.pi / 180)

/-- JavaScript `Math.atan2(y, x)`: the angle of the vector (x, y), in
(-π, π], computed branch-wise from `Real.arctan` (both arguments zero
give 0, as for JavaScript positive zeros). -/
def atan2 (y x : ℝ) : ℝ :=
  if 0 < x then Real.arctan (y / x)
  else if x < 0 then
    (if 0 ≤ y then Real.arctan (y / x) + Real.pi else Real.arctan (y / x) - Real.pi)
  else
    (if 0 < y then Real.pi / 2 else if y < 0 then -(Real.pi / 2) else 0)

/-- `calculateDistance(point1, point2)`: Haversine great-circle distance in
meters, transcribed statement by statement from the source. -/
def calculateDistance (point1 point2 : LatLng) : ℝ :=
  let lat1 := toRadians point1.lat
  let lat2 := toRadians point2.lat
  let deltaLat := toRadians (point2.lat - point1.lat)
  let deltaLng := toRadians (point2.lng - point1.lng)
  let a := Real.sin (deltaLat / 2) * Real.sin (deltaLat / 2) +
    Real.cos lat1 * Real.cos lat2 * Real.sin (deltaLng / 2) * Real.sin (deltaLng / 2)
  let c := 2 * atan2 (Real.sqrt a) (Real.sqrt (1 - a))
  EARTH_RADIUS * c

/-- `calculatePerimeter(points)`: 0 for fewer than 2 points, otherwise the
loop `for (i = 0; i < points.length; i++) perimeter += calculateDistance(
points[i], points[(i + 1) % points.length])`, modelled as a left fold over
the index range. -/
def calculatePerimeter (points : List LatLng) : ℝ :=
  if points.length < 2 then 0
  else
    (List.range points.length).foldl
      (fun perimeter i =>
        perimeter +
          calculateDistance (points.getD i default)
            (points.getD ((i + 1) % points.length) default))
      0

/-- `calculatePolygonArea(points)`: 0 for fewer than 3 points, otherwise the
centroid-centred planar projection followed by the Shoelace loop
`area += x_i * y_j; area -= x_j * y_i` with `j = (i + 1) % n`, returning
`Math.abs(area) / 2`. -/
def calculatePolygonArea (points : List LatLng) : ℝ :=
  if points.length < 3 then 0
  else
    let centroid : LatLng :=
      ⟨points.foldl (fun sum p => sum + p.lat) 0 / (points.length : ℝ),
       points.foldl (fun sum p => sum + p.lng) 0 / (points.length : ℝ)⟩
    let metersPerDegreeLat : ℝ := 111320
    let metersPerDegreeLng : ℝ := 111320 * Real.cos (toRadians centroid.lat)
    let localPoints := points.map (fun p =>
      ((p.lng - centroid.lng) * metersPerDegreeLng,
       (p.lat - centroid.lat) * metersPerDegreeLat))
    let area := (List.range localPoints.length).foldl
      (fun area i =>
        let j := (i + 1) % localPoints.length
        area + (localPoints.getD i (0, 0)).1 * (localPoints.getD j (0, 0)).2
          - (localPoints.getD j (0, 0)).1 * (localPoints.getD i (0, 0)).2)
      0
    |area| / 2

/-- `sqmToSqft(sqm) = sqm * 10.7639`. -/
def sqmToSqft (sqm : ℝ) : ℝ := sqm * 10.7639

/-- `metersToFeet(meters) = meters * 3.28084`. -/
def metersToFeet (meters : ℝ) : ℝ := meters * 3.28084

/-- JavaScript `Math.round`: round half toward positive infinity. -/
def jsRound (x : ℝ) : ℤ := ⌊x + 1 / 2⌋

/-- The rounding idiom used in `getMeasurements`:
`Math.round(x * 100) / 100`, i.e. rounding to two decimal places. -/
def round2 (x : ℝ) : ℝ := (jsRound (x * 100) : ℝ) / 100

/-- `getMeasurements(points)`: computes the raw area and perimeter once and
rounds each of the four returned fields to two decimal places. -/
def getMeasurements (points : List LatLng) : AreaMeasurements :=
  let area := calculatePolygonArea points
  let perimeter := calculatePerimeter points
  { area := (jsRound (area * 100) : ℝ) / 100
    perimeter := (jsRound (perimeter * 100) : ℝ) / 100
    areaFt := (jsRound (sqmToSqft area * 100) : ℝ) / 100
    perimeterFt := (jsRound (metersToFeet perimeter * 100) : ℝ) / 100 }

/-- Spec-side definition (for the refinement claim C4): the centroid
latitude as the arithmetic mean of all latitudes. -/
def meanLat (points : List LatLng) : ℝ :=
  (points.map LatLng.lat).sum / (points.length : ℝ)

/-- Spec-side definition (for the refinement claim C4): the centroid
longitude as the arithmetic mean of all longitudes. -/
def meanLng (points : List LatLng) : ℝ :=
  (points.map LatLng.lng).sum / (points.length : ℝ)

/-- Spec-side definition (for the refinement claim C4): the planar x
coordinate `x = (lng - centroidLng) * 111320 * cos(centroidLat in radians)`
of the i-th vertex. -/
def specX (points : List LatLng) (i : ℕ) : ℝ :=
  ((points.getD i default).lng - meanLng points) * 111320 *
    Real.cos (toRadians (meanLat points))

/-- Spec-side definition (for the refinement claim C4): the planar y
coordinate `y = (lat - centroidLat) * 111320` of the i-th vertex. -/
def specY (points : List LatLng) (i : ℕ) : ℝ :=
  ((points.getD i default).lat - meanLat points) * 111320

/-- The Shoelace cross-sum `Σ(x_i * y_{i+1} - x_{i+1} * y_i)` over the
spec-side planar coordinates, indices wrapping modulo the point count. -/
def shoelaceSum (points : List LatLng) : ℝ :=
  ∑ i ∈ Finset.range points.length,
    (specX points i * specY points ((i + 1) % points.length) -
      specX points ((i + 1) % points.length) * specY points i)

/-- The haversine quantity `a` of the source, as a standalone function. -/
def havA (point1 point2 : LatLng) : ℝ :=
  Real.sin (toRadians (point2.lat - point1.lat) / 2) *
      Real.sin (toRadians (point2.lat - point1.lat) / 2) +
    Real.cos (toRadians point1.lat) * Real.cos (toRadians point2.lat) *
      Real.sin (toRadians (point2.lng - point1.lng) / 2) *
      Real.sin (toRadians (point2.lng - point1.lng) / 2)

/-- A concrete rectangle with exactly computable measurements: symmetric
about the equator, so the centroid latitude is 0, the longitude scale
factor is exactly `111320 * cos 0 = 111320` and every projected coordinate
is rational.  The rectangle is 5.002 m wide and 2 m tall, giving area
exactly 10.004 m². -/
def cexPoints : List LatLng :=
  [⟨-(1 / 111320), 0⟩, ⟨-(1 / 111320), 5.002 / 111320⟩,
   ⟨1 / 111320, 5.002 / 111320⟩, ⟨1 / 111320, 0⟩]

end

/-- JavaScript `value.toFixed(2)` for the rational values the formatting
claims evaluate: round half up to an integer number of hundredths and
render with exactly two digits after the decimal point. -/
def toFixed2 (x : ℚ) : String :=
  let n : ℤ := ⌊x * 100 + 1 / 2⌋
  let whole : ℤ := n / 100
  let frac : ℕ := (n % 100).toNat
  toString whole ++ "." ++ (if frac < 10 then "0" ++ toString frac else toString frac)

/-- `formatDistance(distance, isMetric)`: meters below 1000 and kilometers
from 1000 on when metric; feet below 5280 and miles from 5280 on when
imperial; two decimals and a unit suffix in every branch. -/
def formatDistance (distance : ℚ) (isMetric : Bool) : String :=
  if isMetric then
    if distance ≥ 1000 then toFixed2 (distance / 1000) ++ " km"
    else toFixed2 distance ++ " m"
  else
    if distance ≥ 5280 then toFixed2 (distance / 5280) ++ " mi"
    else toFixed2 distance ++ " ft"

/-! ### General fold and sum lemmas -/

lemma foldl_add_eq_sum (f : ℕ → ℝ) (a : ℝ) (n : ℕ) :
    (List.range n).foldl (fun acc i => acc + f i) a = a + ∑ i ∈ Finset.range n, f i := by
  induction n with
  | zero => simp
  | succ m ih =>
    rw [List.range_succ, List.foldl_append, ih, Finset.sum_range_succ]
    simp [add_assoc]

lemma foldl_add_sub_eq_sum (f g : ℕ → ℝ) (a : ℝ) (n : ℕ) :
    (List.range n).foldl (fun acc i => acc + f i - g i) a =
      a + ∑ i ∈ Finset.range n, (f i - g i) := by
  induction n with
  | zero => simp
  | succ m ih =>
    rw [List.range_succ, List.foldl_append, ih, Finset.sum_range_succ]
    simp only [List.foldl_cons, List.foldl_nil]
    ring

lemma foldl_add_map {α : Type} (f : α → ℝ) :
    ∀ (l : List α) (a : ℝ), l.foldl (fun s x => s + f x) a = a + (l.map f).sum
  | [], a => by simp
  | x :: l, a => by
    simp only [List.foldl_cons, List.map_cons, List.sum_cons]
    rw [foldl_add_map f l (a + f x)]
    ring

lemma sum_range_cycle (n : ℕ) (f : ℕ → ℝ) :
    ∑ i ∈ Finset.range n, f ((i + 1) % n) = ∑ i ∈ Finset.range n, f i := by
  cases n with
  | zero => simp
  | succ m =>
    rw [Finset.sum_range_succ, Finset.sum_range_succ' f m]
    congr 1
    · refine Finset.sum_congr rfl fun i hi => ?_
      rw [Finset.mem_range] at hi
      rw [Nat.mod_eq_of_lt (by omega)]
    · rw [Nat.mod_self]

lemma sum_range_cycle_k (n k : ℕ) (f : ℕ → ℝ) :
    ∑ i ∈ Finset.range n, f ((i + k) % n) = ∑ i ∈ Finset.range n, f i := by
  induction k with
  | zero =>
    refine Finset.sum_congr rfl fun i hi => ?_
    rw [Finset.mem_range] at hi
    rw [Nat.add_zero, Nat.mod_eq_of_lt hi]
  | succ k ih =>
    have step : ∀ i : ℕ, (i + (k + 1)) % n = ((i + 1) % n + k) % n := by
      intro i
      rw [Nat.mod_add_mod]
      congr 1
      omega
    calc ∑ i ∈ Finset.range n, f ((i + (k + 1)) % n)
        = ∑ i ∈ Finset.range n, (fun j => f ((j + k) % n)) ((i + 1) % n) := by
          refine Finset.sum_congr rfl fun i _ => ?_
          rw [step i]
      _ = ∑ i ∈ Finset.range n, f ((i + k) % n) := by
          have h := sum_range_cycle n (fun j => f ((j + k) % n))
          simpa using h
      _ = ∑ i ∈ Finset.range n, f i := ih

/-! ### List indexing lemmas -/

lemma getD_rotate {α : Type} (l : List α) (k i : ℕ) (hi : i < l.length) (d : α) :
    (l.rotate k).getD i d = l.getD ((i + k) % l.length) d := by
  rw [List.getD_eq_getElem?_getD, List.getD_eq_getElem?_getD, List.getElem?_rotate hi]

lemma getD_reverse {α : Type} (l : List α) (i : ℕ) (hi : i < l.length) (d : α) :
    l.reverse.getD i d = l.getD (l.length - 1 - i) d := by
  rw [List.getD_eq_getElem?_getD, List.getD_eq_getElem?_getD, List.getElem?_reverse hi]

lemma getD_map_pair (f : LatLng → ℝ × ℝ) (l : List LatLng) (i : ℕ) (hi : i < l.length)
    (d : ℝ × ℝ) (d' : LatLng) : (l.map f).getD i d = f (l.getD i d') := by
  rw [List.getD_eq_getElem?_getD, List.getD_eq_getElem?_getD, List.getElem?_map,
    List.getElem?_eq_getElem hi]
  simp

/-! ### Haversine distance lemmas -/

lemma calculateDistance_eq (point1 point2 : LatLng) :
    calculateDistance point1 point2 =
      EARTH_RADIUS *
        (2 * atan2 (Real.sqrt (havA point1 point2)) (Real.sqrt (1 - havA point1 point2))) :=
  rfl

lemma havA_symm (p q : LatLng) : havA p q = havA q p := by
  unfold havA
  have ha : toRadians (p.lat - q.lat) / 2 = -(toRadians (q.lat - p.lat) / 2) := by
    unfold toRadians; ring
  have hb : toRadians (p.lng - q.lng) / 2 = -(toRadians (q.lng - p.lng) / 2) := by
    unfold toRadians; ring
  rw [ha, hb, Real.sin_neg, Real.sin_neg]
  ring

lemma calculateDistance_symm (p q : LatLng) :
    calculateDistance p q = calculateDistance q p := by
  rw [calculateDistance_eq, calculateDistance_eq, havA_symm]

lemma atan2_nonneg {y x : ℝ} (hy : 0 ≤ y) (hx : 0 ≤ x) : 0 ≤ atan2 y x := by
  unfold atan2
  have harctan : 0 ≤ Real.arctan (y / x) := by
    have h0 : 0 ≤ y / x := div_nonneg hy hx
    have := Real.arctan_strictMono.monotone h0
    rwa [Real.arctan_zero] at this
  split_ifs
  all_goals try rfl
  all_goals linarith [Real.pi_pos]

lemma atan2_zero_one : atan2 0 1 = 0 := by
  unfold atan2
  rw [if_pos (by norm_num : (0:ℝ) < 1)]
  norm_num

lemma calculateDistance_nonneg (p q : LatLng) : 0 ≤ calculateDistance p q := by
  rw [calculateDistance_eq]
  have h := atan2_nonneg (Real.sqrt_nonneg (havA p q)) (Real.sqrt_nonneg (1 - havA p q))
  have hR : (0:ℝ) ≤ EARTH_RADIUS := by unfold EARTH_RADIUS; norm_num
  nlinarith

lemma havA_self (p : LatLng) : havA p p = 0 := by
  unfold havA
  rw [sub_self, sub_self]
  simp [toRadians]

lemma calculateDistance_self (p : LatLng) : calculateDistance p p = 0 := by
  rw [calculateDistance_eq, havA_self]
  rw [Real.sqrt_zero, sub_zero, Real.sqrt_one, atan2_zero_one]
  ring

lemma havA_antimeridian : havA ⟨0, -180⟩ ⟨0, 180⟩ = 0 := by
  unfold havA
  have h1 : toRadians ((0:ℝ) - 0) / 2 = 0 := by unfold toRadians; ring
  have h2 : toRadians ((180:ℝ) - -180) / 2 = Real.pi := by unfold toRadians; ring
  simp only [h1, h2, Real.sin_zero, Real.sin_pi]
  ring

lemma calculateDistance_antimeridian : calculateDistance ⟨0, -180⟩ ⟨0, 180⟩ = 0 := by
  rw [calculateDistance_eq, havA_antimeridian]
  rw [Real.sqrt_zero, sub_zero, Real.sqrt_one, atan2_zero_one]
  ring

/-! ### Perimeter lemmas -/

lemma calculatePerimeter_eq (points : List LatLng) (h : 2 ≤ points.length) :
    calculatePerimeter points =
      ∑ i ∈ Finset.range points.length,
        calculateDistance (points.getD i default)
          (points.getD ((i + 1) % points.length) default) := by
  unfold calculatePerimeter
  rw [if_neg (by omega)]
  rw [foldl_add_eq_sum
    (fun i => calculateDistance (points.getD i default)
      (points.getD ((i + 1) % points.length) default)) 0 points.length]
  rw [zero_add]

lemma calculatePerimeter_rotate (points : List LatLng) (k : ℕ) :
    calculatePerimeter (points.rotate k) = calculatePerimeter points := by
  by_cases h : points.length < 2
  · unfold calculatePerimeter
    rw [List.length_rotate]
    rw [if_pos h, if_pos h]
  · push_neg at h
    have hn : 0 < points.length := by omega
    rw [calculatePerimeter_eq _ (by rw [List.length_rotate]; omega),
      calculatePerimeter_eq _ h, List.length_rotate]
    rw [← sum_range_cycle_k points.length k
      (fun j => calculateDistance (points.getD j default)
        (points.getD ((j + 1) % points.length) default))]
    refine Finset.sum_congr rfl fun i hi => ?_
    rw [Finset.mem_range] at hi
    rw [getD_rotate points k i hi, getD_rotate points k ((i + 1) % points.length)
      (Nat.mod_lt _ hn)]
    have hidx : ((i + 1) % points.length + k) % points.length =
        ((i + k) % points.length + 1) % points.length := by
      rw [Nat.mod_add_mod, Nat.mod_add_mod]
      congr 1
      omega
    rw [hidx]

/-! ### Area lemmas -/

lemma calculatePolygonArea_eq (points : List LatLng) (h : 3 ≤ points.length) :
    calculatePolygonArea points = |shoelaceSum points| / 2 := by
  simp only [calculatePolygonArea]
  rw [if_neg (by omega)]
  simp only [List.length_map]
  rw [foldl_add_sub_eq_sum
    (fun i => ((points.map (fun p =>
        ((p.lng - points.foldl (fun sum p => sum + p.lng) 0 / (points.length : ℝ)) *
          (111320 * Real.cos (toRadians
            (points.foldl (fun sum p => sum + p.lat) 0 / (points.length : ℝ)))),
         (p.lat - points.foldl (fun sum p => sum + p.lat) 0 / (points.length : ℝ)) *
          111320))).getD i (0, 0)).1 *
      ((points.map (fun p =>
        ((p.lng - points.foldl (fun sum p => sum + p.lng) 0 / (points.length : ℝ)) *
          (111320 * Real.cos (toRadians
            (points.foldl (fun sum p => sum + p.lat) 0 / (points.length : ℝ)))),
         (p.lat - points.foldl (fun sum p => sum + p.lat) 0 / (points.length : ℝ)) *
          111320))).getD ((i + 1) % points.length) (0, 0)).2)
    (fun i => ((points.map (fun p =>
        ((p.lng - points.foldl (fun sum p => sum + p.lng) 0 / (points.length : ℝ)) *
          (111320 * Real.cos (toRadians
            (points.foldl (fun sum p => sum + p.lat) 0 / (points.length : ℝ)))),
         (p.lat - points.foldl (fun sum p => sum + p.lat) 0 / (points.length : ℝ)) *
          111320))).getD ((i + 1) % points.length) (0, 0)).1 *
      ((points.map (fun p =>
        ((p.lng - points.foldl (fun sum p => sum + p.lng) 0 / (points.length : ℝ)) *
          (111320 * Real.cos (toRadians
            (points.foldl (fun sum p => sum + p.lat) 0 / (points.length : ℝ)))),
         (p.lat - points.foldl (fun sum p => sum + p.lat) 0 / (points.length : ℝ)) *
          111320))).getD i (0, 0)).2)
    0 points.length, zero_add]
  have hn : 0 < points.length := by omega
  have hclat : points.foldl (fun sum p => sum + p.lat) 0 / (points.length : ℝ) =
      meanLat points := by
    rw [foldl_add_map LatLng.lat points 0, zero_add, meanLat]
  have hclng : points.foldl (fun sum p => sum + p.lng) 0 / (points.length : ℝ) =
      meanLng points := by
    rw [foldl_add_map LatLng.lng points 0, zero_add, meanLng]
  unfold shoelaceSum
  congr 1
  congr 1
  refine Finset.sum_congr rfl fun i hi => ?_
  rw [Finset.mem_range] at hi
  rw [getD_map_pair _ points i hi _ default,
    getD_map_pair _ points ((i + 1) % points.length) (Nat.mod_lt _ hn) _ default]
  dsimp only
  rw [hclat, hclng]
  unfold specX specY
  ring

lemma meanLat_rotate (points : List LatLng) (k : ℕ) :
    meanLat (points.rotate k) = meanLat points := by
  unfold meanLat
  rw [((List.rotate_perm points k).map LatLng.lat).sum_eq, List.length_rotate]

lemma meanLng_rotate (points : List LatLng) (k : ℕ) :
    meanLng (points.rotate k) = meanLng points := by
  unfold meanLng
  rw [((List.rotate_perm points k).map LatLng.lng).sum_eq, List.length_rotate]

lemma meanLat_reverse (points : List LatLng) :
    meanLat points.reverse = meanLat points := by
  unfold meanLat
  rw [List.map_reverse, List.sum_reverse, List.length_reverse]

lemma meanLng_reverse (points : List LatLng) :
    meanLng points.reverse = meanLng points := by
  unfold meanLng
  rw [List.map_reverse, List.sum_reverse, List.length_reverse]

lemma specX_rotate (points : List LatLng) (k i : ℕ) (hi : i < points.length) :
    specX (points.rotate k) i = specX points ((i + k) % points.length) := by
  unfold specX
  rw [meanLat_rotate, meanLng_rotate, getD_rotate points k i hi]

lemma specY_rotate (points : List LatLng) (k i : ℕ) (hi : i < points.length) :
    specY (points.rotate k) i = specY points ((i + k) % points.length) := by
  unfold specY
  rw [meanLat_rotate, getD_rotate points k i hi]

lemma specX_reverse (points : List LatLng) (i : ℕ) (hi : i < points.length) :
    specX points.reverse i = specX points (points.length - 1 - i) := by
  unfold specX
  rw [meanLat_reverse, meanLng_reverse, getD_reverse points i hi]

lemma specY_reverse (points : List LatLng) (i : ℕ) (hi : i < points.length) :
    specY points.reverse i = specY points (points.length - 1 - i) := by
  unfold specY
  rw [meanLat_reverse, getD_reverse points i hi]

lemma shoelaceSum_rotate (points : List LatLng) (k : ℕ) (hn : 0 < points.length) :
    shoelaceSum (points.rotate k) = shoelaceSum points := by
  unfold shoelaceSum
  simp only [List.length_rotate]
  rw [← sum_range_cycle_k points.length k
    (fun j => specX points j * specY points ((j + 1) % points.length) -
      specX points ((j + 1) % points.length) * specY points j)]
  refine Finset.sum_congr rfl fun i hi => ?_
  rw [Finset.mem_range] at hi
  rw [specX_rotate points k i hi, specY_rotate points k i hi,
    specX_rotate points k ((i + 1) % points.length) (Nat.mod_lt _ hn),
    specY_rotate points k ((i + 1) % points.length) (Nat.mod_lt _ hn)]
  have hidx : ((i + 1) % points.length + k) % points.length =
      ((i + k) % points.length + 1) % points.length := by
    rw [Nat.mod_add_mod, Nat.mod_add_mod]
    congr 1
    omega
  rw [hidx]

lemma shoelaceSum_reverse (points : List LatLng) (hn : 0 < points.length) :
    shoelaceSum points.reverse = -shoelaceSum points := by
  set n := points.length with hdefn
  set G : ℕ → ℝ := fun j =>
    specX points j * specY points ((j + 1) % n) -
      specX points ((j + 1) % n) * specY points j with hG
  set F : ℕ → ℝ := fun i =>
    specX points (n - 1 - i) * specY points (n - 1 - (i + 1) % n) -
      specX points (n - 1 - (i + 1) % n) * specY points (n - 1 - i) with hF
  have hrev : shoelaceSum points.reverse = ∑ i ∈ Finset.range n, F i := by
    unfold shoelaceSum
    simp only [List.length_reverse, ← hdefn]
    refine Finset.sum_congr rfl fun i hi => ?_
    rw [Finset.mem_range] at hi
    rw [specX_reverse points i hi, specY_reverse points i hi,
      specX_reverse points ((i + 1) % n) (Nat.mod_lt _ hn),
      specY_reverse points ((i + 1) % n) (Nat.mod_lt _ hn)]
  have hfwd : shoelaceSum points = ∑ j ∈ Finset.range n, G j := rfl
  have hreflect : ∑ i ∈ Finset.range n, F i = ∑ j ∈ Finset.range n, F (n - 1 - j) :=
    (Finset.sum_range_reflect F n).symm
  have hpoint : ∀ j, j < n → F (n - 1 - j) = -G ((j + (n - 1)) % n) := by
    intro j hj
    rcases Nat.eq_zero_or_pos j with hj0 | hj1
    · subst hj0
      have e1 : n - 1 - 0 = n - 1 := by omega
      have e2 : (n - 1 + 1) % n = 0 := by
        have : n - 1 + 1 = n := by omega
        rw [this, Nat.mod_self]
      have e3 : (0 + (n - 1)) % n = n - 1 := by
        rw [Nat.zero_add, Nat.mod_eq_of_lt (by omega)]
      rw [e1, hF, hG]
      dsimp only
      rw [e3, e2]
      have e4 : n - 1 - (n - 1) = 0 := by omega
      have e5 : n - 1 - 0 = n - 1 := by omega
      rw [e4, e5]
      ring
    · have e1 : n - 1 - j + 1 = n - j := by omega
      have e2 : (n - 1 - j + 1) % n = n - j := by
        rw [e1, Nat.mod_eq_of_lt (by omega)]
      have e3 : n - 1 - (n - j) = j - 1 := by omega
      have e4 : n - 1 - (n - 1 - j) = j := by omega
      have e5 : (j + (n - 1)) % n = j - 1 := by
        have : j + (n - 1) = (j - 1) + n := by omega
        rw [this, Nat.add_mod_right, Nat.mod_eq_of_lt (by omega)]
      have e6 : (j - 1 + 1) % n = j := by
        have : j - 1 + 1 = j := by omega
        rw [this, Nat.mod_eq_of_lt hj]
      rw [hF, hG]
      dsimp only
      rw [e2, e3, e4, e5, e6]
      ring
  rw [hrev, hfwd, hreflect]
  rw [Finset.sum_congr rfl fun j hj => hpoint j (Finset.mem_range.mp hj)]
  rw [Finset.sum_neg_distrib]
  rw [sum_range_cycle_k n (n - 1) G]

lemma calculatePolygonArea_nonneg (points : List LatLng) :
    0 ≤ calculatePolygonArea points := by
  by_cases h : points.length < 3
  · unfold calculatePolygonArea
    rw [if_pos h]
  · rw [calculatePolygonArea_eq points (by omega)]
    positivity

/-! ### Rounding lemmas -/

lemma getMeasurements_fields (points : List LatLng) :
    getMeasurements points =
      ⟨round2 (calculatePolygonArea points), round2 (calculatePerimeter points),
        round2 (calculatePolygonArea points * 10.7639),
        round2 (calculatePerimeter points * 3.28084)⟩ := rfl

lemma jsRound_eval (x : ℝ) (z : ℤ) (h1 : (z : ℝ) ≤ x + 1 / 2) (h2 : x + 1 / 2 < z + 1) :
    jsRound x = z := by
  unfold jsRound
  exact Int.floor_eq_iff.mpr ⟨h1, h2⟩

lemma round2_close (x : ℝ) : |round2 x - x| ≤ 1 / 200 := by
  unfold round2 jsRound
  have h1 := Int.floor_le (x * 100 + 1 / 2)
  have h2 := Int.lt_floor_add_one (x * 100 + 1 / 2)
  rw [abs_le]
  constructor <;> [skip; skip] <;> linarith

lemma round2_mul_close (A c : ℝ) (hc : 0 ≤ c) :
    |round2 (A * c) - round2 A * c| ≤ (1 + c) / 200 := by
  have h1 : |round2 (A * c) - round2 A * c| ≤
      |round2 (A * c) - A * c| + |A * c - round2 A * c| := abs_sub_le _ _ _
  have h2 : |A * c - round2 A * c| = |A - round2 A| * c := by
    rw [← sub_mul, abs_mul, abs_of_nonneg hc]
  have h3 : |A - round2 A| ≤ 1 / 200 := by
    rw [abs_sub_comm]
    exact round2_close A
  have h4 : |A - round2 A| * c ≤ (1 / 200) * c :=
    mul_le_mul_of_nonneg_right h3 hc
  have h5 := round2_close (A * c)
  rw [h2] at h1
  linarith

/-! ### Evaluation on the concrete rectangle -/

lemma cexPoints_length : cexPoints.length = 4 := rfl

lemma meanLat_cex : meanLat cexPoints = 0 := by
  unfold meanLat cexPoints
  simp only [List.map_cons, List.map_nil, List.sum_cons, List.sum_nil, List.length_cons,
    List.length_nil]
  norm_num

lemma meanLng_cex : meanLng cexPoints = 2.501 / 111320 := by
  unfold meanLng cexPoints
  simp only [List.map_cons, List.map_nil, List.sum_cons, List.sum_nil, List.length_cons,
    List.length_nil]
  norm_num

lemma cos_meanLat_cex : Real.cos (toRadians (meanLat cexPoints)) = 1 := by
  rw [meanLat_cex]
  unfold toRadians
  rw [zero_mul, Real.cos_zero]

lemma shoelace_cex : shoelaceSum cexPoints = 20.008 := by
  have hX : ∀ i : ℕ, specX cexPoints i =
      ((cexPoints.getD i default).lng - 2.501 / 111320) * 111320 := by
    intro i
    unfold specX
    rw [cos_meanLat_cex, meanLng_cex, mul_one]
  have hY : ∀ i : ℕ, specY cexPoints i = (cexPoints.getD i default).lat * 111320 := by
    intro i
    unfold specY
    rw [meanLat_cex, sub_zero]
  unfold shoelaceSum
  rw [cexPoints_length]
  rw [Finset.sum_range_succ, Finset.sum_range_succ, Finset.sum_range_succ,
    Finset.sum_range_succ, Finset.sum_range_zero]
  simp only [hX, hY]
  norm_num [cexPoints, List.getD]

lemma area_cex : calculatePolygonArea cexPoints = 10.004 := by
  rw [calculatePolygonArea_eq cexPoints (by rw [cexPoints_length]; omega)]
  rw [shoelace_cex]
  rw [abs_of_nonneg (by norm_num)]
  norm_num

lemma gm_area_cex : (getMeasurements cexPoints).area = 10 := by
  rw [getMeasurements_fields]
  show round2 (calculatePolygonArea cexPoints) = 10
  rw [area_cex]
  unfold round2
  rw [jsRound_eval (10.004 * 100) 1000 (by norm_num) (by norm_num)]
  norm_num

lemma gm_areaFt_cex : (getMeasurements cexPoints).areaFt = 107.68 := by
  rw [getMeasurements_fields]
  show round2 (calculatePolygonArea cexPoints * 10.7639) = 107.68
  rw [area_cex]
  unfold round2
  rw [jsRound_eval (10.004 * 10.7639 * 100) 10768 (by norm_num) (by norm_num)]
  norm_num

lemma round2_of_ten_times_conversion : round2 ((10 : ℝ) * 10.7639) = 107.64 := by
  unfold round2
  rw [jsRound_eval ((10 : ℝ) * 10.7639 * 100) 10764 (by norm_num) (by norm_num)]
  norm_num

/-! ### Formatting evaluation lemmas -/

lemma floorQ_eval (x : ℚ) (z : ℤ) (h1 : (z : ℚ) ≤ x) (h2 : x < z + 1) : ⌊x⌋ = z :=
  Int.floor_eq_iff.mpr ⟨h1, h2⟩

lemma toFixed2_999 : toFixed2 999 = "999.00" := by
  unfold toFixed2
  rw [floorQ_eval (999 * 100 + 1 / 2) 99900 (by norm_num) (by norm_num)]
  decide

lemma toFixed2_1500_over_1000 : toFixed2 (1500 / 1000) = "1.50" := by
  unfold toFixed2
  rw [floorQ_eval (1500 / 1000 * 100 + 1 / 2) 150 (by norm_num) (by norm_num)]
  decide

/-! ### Claim theorems -/

/-- Claim C1, counterexample: on a concrete 5.002 m by 2 m equatorial
rectangle the code's square-feet field (107.68, rounded from the raw area)
differs from the value obtained by scaling the already-rounded metric area
and rounding again (10.00 * 10.7639 rounds to 107.64), so the order
"round metric first, then scale the rounded value" stated by the claim does
not hold of `getMeasurements`. -/
theorem claim_C1_cex :
    (getMeasurements cexPoints).areaFt ≠
      round2 ((getMeasurements cexPoints).area * 10.7639) := by
  rw [gm_areaFt_cex, gm_area_cex, round2_of_ten_times_conversion]
  norm_num

/-- Claim C1, amended: `getMeasurements` rounds each of the four fields
independently from the raw (unrounded) metric values: the metric fields are
the raw area/perimeter rounded to 2 decimals, and the imperial fields are
the raw values scaled by 10.7639 resp. 3.28084 and then rounded to 2
decimals — not derived from the already-rounded metric fields. -/
theorem claim_C1 (points : List LatLng) :
    (getMeasurements points).area = round2 (calculatePolygonArea points) ∧
    (getMeasurements points).perimeter = round2 (calculatePerimeter points) ∧
    (getMeasurements points).areaFt = round2 (calculatePolygonArea points * 10.7639) ∧
    (getMeasurements points).perimeterFt =
      round2 (calculatePerimeter points * 3.28084) := by
  rw [getMeasurements_fields]
  exact ⟨rfl, rfl, rfl, rfl⟩

/-- Claim C2, counterexample: on the concrete equatorial rectangle the
returned fields satisfy |areaFt - area * 10.7639| = |107.68 - 107.639| =
0.041 > 0.01, so the claimed 0.01 tolerance between the rounded fields
fails. -/
theorem claim_C2_cex :
    ¬ |(getMeasurements cexPoints).areaFt -
        (getMeasurements cexPoints).area * 10.7639| ≤ 0.01 := by
  rw [gm_areaFt_cex, gm_area_cex]
  rw [show (107.68 : ℝ) - 10 * 10.7639 = 0.041 by norm_num]
  rw [abs_of_nonneg (by norm_num)]
  norm_num

/-- Claim C2, amended: the unit-conversion invariant between the returned
(rounded) fields holds with tolerance 0.06 for the area pair and 0.03 for
the perimeter pair (each field is rounded from the raw value, so the gap is
bounded by 0.005 * (1 + conversion factor), which exceeds the claimed
0.01). -/
theorem claim_C2 (points : List LatLng) :
    |(getMeasurements points).areaFt - (getMeasurements points).area * 10.7639| ≤ 0.06 ∧
    |(getMeasurements points).perimeterFt -
        (getMeasurements points).perimeter * 3.28084| ≤ 0.03 := by
  rw [getMeasurements_fields]
  constructor
  · exact le_trans (round2_mul_close (calculatePolygonArea points) 10.7639 (by norm_num))
      (by norm_num)
  · exact le_trans (round2_mul_close (calculatePerimeter points) 3.28084 (by norm_num))
      (by norm_num)

/-- Claim C3, counterexample: the valid points (0, -180) and (0, 180)
differ component-wise yet have Haversine distance 0 (their longitude
difference of 360 degrees yields sin(π) = 0), so "distance 0 iff p1 == p2"
fails. -/
theorem claim_C3_cex :
    validPoint ⟨0, -180⟩ ∧ validPoint ⟨0, 180⟩ ∧
      calculateDistance ⟨0, -180⟩ ⟨0, 180⟩ = 0 ∧
      (⟨0, -180⟩ : LatLng) ≠ ⟨0, 180⟩ := by
  refine ⟨?_, ?_, calculateDistance_antimeridian, ?_⟩
  · unfold validPoint
    norm_num
  · unfold validPoint
    norm_num
  · intro h
    have := congrArg LatLng.lng h
    norm_num at this

/-- Claim C3, amended: for every pair of valid GeoPoints the distance is
non-negative, and it is 0 if p1 = p2; the converse implication fails (two
distinct valid coordinate pairs, such as longitudes -180 and 180 on the
same parallel, can denote the same physical point and yield 0). -/
theorem claim_C3 (p1 p2 : LatLng) (h1 : validPoint p1) (h2 : validPoint p2) :
    0 ≤ calculateDistance p1 p2 ∧ (p1 = p2 → calculateDistance p1 p2 = 0) := by
  refine ⟨calculateDistance_nonneg p1 p2, fun h => ?_⟩
  rw [h]
  exact calculateDistance_self p2

/-- Witness for claim C3 at the valid point (0, 0). -/
theorem claim_C3_witness :
    validPoint ⟨0, 0⟩ ∧
      (0 ≤ calculateDistance ⟨0, 0⟩ ⟨0, 0⟩ ∧
        ((⟨0, 0⟩ : LatLng) = ⟨0, 0⟩ → calculateDistance ⟨0, 0⟩ ⟨0, 0⟩ = 0)) := by
  have hv : validPoint (⟨0, 0⟩ : LatLng) := by
    unfold validPoint
    norm_num
  exact ⟨hv, claim_C3 ⟨0, 0⟩ ⟨0, 0⟩ hv hv⟩

/-- Claim C4: `calculatePolygonArea` returns 0 for fewer than 3 points, and
otherwise exactly the absolute Shoelace cross-sum of the centroid-centred
planar projections (centroid = arithmetic mean of latitudes and longitudes,
x = (lng - centroidLng) * 111320 * cos(centroidLat in radians),
y = (lat - centroidLat) * 111320, indices wrapping modulo the count),
divided by 2. -/
theorem claim_C4 (points : List LatLng) :
    calculatePolygonArea points =
      if points.length < 3 then 0
      else
        |∑ i ∈ Finset.range points.length,
            (specX points i * specY points ((i + 1) % points.length) -
              specX points ((i + 1) % points.length) * specY points i)| / 2 := by
  by_cases h : points.length < 3
  · rw [if_pos h]
    unfold calculatePolygonArea
    rw [if_pos h]
  · rw [if_neg h]
    exact calculatePolygonArea_eq points (by omega)

/-- Claim C5: `calculatePerimeter` returns 0 for 0 or 1 points and the sum
of the n consecutive-pair distances (including the closing edge from the
last point back to the first) for n ≥ 2 points; in particular on exactly
two points it returns twice the distance between them. -/
theorem claim_C5 :
    (∀ points : List LatLng,
      calculatePerimeter points =
        if points.length < 2 then 0
        else
          ∑ i ∈ Finset.range points.length,
            calculateDistance (points.getD i default)
              (points.getD ((i + 1) % points.length) default)) ∧
    ∀ p q : LatLng, calculatePerimeter [p, q] = 2 * calculateDistance p q := by
  constructor
  · intro points
    by_cases h : points.length < 2
    · rw [if_pos h]
      unfold calculatePerimeter
      rw [if_pos h]
    · rw [if_neg h]
      exact calculatePerimeter_eq points (by omega)
  · intro p q
    rw [calculatePerimeter_eq [p, q] (by simp)]
    simp only [List.length_cons, List.length_nil]
    rw [Finset.sum_range_succ, Finset.sum_range_succ, Finset.sum_range_zero]
    norm_num [List.getD]
    rw [calculateDistance_symm q p]
    ring

/-- Claim C6: `calculatePolygonArea` is non-negative and invariant under
cyclic rotation of the point list and under reversal of the point order. -/
theorem claim_C6 (points : List LatLng) (k : ℕ) :
    0 ≤ calculatePolygonArea points ∧
    calculatePolygonArea (points.rotate k) = calculatePolygonArea points ∧
    calculatePolygonArea points.reverse = calculatePolygonArea points := by
  refine ⟨calculatePolygonArea_nonneg points, ?_, ?_⟩
  · by_cases h : points.length < 3
    · unfold calculatePolygonArea
      rw [List.length_rotate, if_pos h, if_pos h]
    · rw [calculatePolygonArea_eq _ (by rw [List.length_rotate]; omega),
        calculatePolygonArea_eq _ (by omega),
        shoelaceSum_rotate points k (by omega)]
  · by_cases h : points.length < 3
    · unfold calculatePolygonArea
      rw [List.length_reverse, if_pos h, if_pos h]
    · rw [calculatePolygonArea_eq _ (by rw [List.length_reverse]; omega),
        calculatePolygonArea_eq _ (by omega),
        shoelaceSum_reverse points (by omega), abs_neg]

/-- Claim C7: the Haversine distance is symmetric in its two arguments for
all valid points. -/
theorem claim_C7 (p1 p2 : LatLng) (h1 : validPoint p1) (h2 : validPoint p2) :
    calculateDistance p1 p2 = calculateDistance p2 p1 :=
  calculateDistance_symm p1 p2

/-- Witness for claim C7 at the valid points (0, 0) and (45, 90). -/
theorem claim_C7_witness :
    validPoint ⟨0, 0⟩ ∧ validPoint ⟨45, 90⟩ ∧
      calculateDistance ⟨0, 0⟩ ⟨45, 90⟩ = calculateDistance ⟨45, 90⟩ ⟨0, 0⟩ := by
  have hv1 : validPoint (⟨0, 0⟩ : LatLng) := by
    unfold validPoint
    norm_num
  have hv2 : validPoint (⟨45, 90⟩ : LatLng) := by
    unfold validPoint
    norm_num
  exact ⟨hv1, hv2, claim_C7 ⟨0, 0⟩ ⟨45, 90⟩ hv1 hv2⟩

/-- Claim C8: `formatDistance` switches from meters to kilometers at
1000 m and from feet to miles at 5280 ft, formatting to two decimals with
the unit suffix in each branch; in particular it maps 999 (metric) to
"999.00 m" and 1500 (metric) to "1.50 km". -/
theorem claim_C8 :
    (∀ d : ℚ,
      formatDistance d true =
        (if d ≥ 1000 then toFixed2 (d / 1000) ++ " km" else toFixed2 d ++ " m") ∧
      formatDistance d false =
        (if d ≥ 5280 then toFixed2 (d / 5280) ++ " mi" else toFixed2 d ++ " ft")) ∧
    formatDistance 999 true = "999.00 m" ∧ formatDistance 1500 true = "1.50 km" := by
  refine ⟨fun d => ⟨rfl, rfl⟩, ?_, ?_⟩
  · unfold formatDistance
    rw [if_pos rfl, if_neg (by norm_num : ¬ (999 : ℚ) ≥ 1000), toFixed2_999]
    rfl
  · unfold formatDistance
    rw [if_pos rfl, if_pos (by norm_num : (1500 : ℚ) ≥ 1000), toFixed2_1500_over_1000]
    rfl

/-- Claim C9: `calculatePerimeter` is invariant under cyclic rotation of
the point list. -/
theorem claim_C9 (points : List LatLng) (k : ℕ) :
    calculatePerimeter (points.rotate k) = calculatePerimeter points :=
  calculatePerimeter_rotate points k

/-- Claim C10: the Haversine distance depends on the longitudes only
through their difference: shifting both longitudes by the same offset
leaves the distance unchanged. -/
theorem claim_C10 (p1 p2 : LatLng) (d : ℝ) :
    calculateDistance ⟨p1.lat, p1.lng + d⟩ ⟨p2.lat, p2.lng + d⟩ =
      calculateDistance p1 p2 := by
  rw [calculateDistance_eq, calculateDistance_eq]
  have hA : havA ⟨p1.lat, p1.lng + d⟩ ⟨p2.lat, p2.lng + d⟩ = havA p1 p2 := by
    unfold havA
    dsimp only
    rw [show p2.lng + d - (p1.lng + d) = p2.lng - p1.lng from by ring]
  rw [hA]

end Mapquotey
